import Mathlib

/-!
Verification of the KodBox CalDAV server (shallow embedding).

The definitions below translate the Python sources of the repository:
  * `src/domain/entities.py`         — `Task.from_kodbox_data`, `Project`, `Calendar`
  * `src/infrastructure/repositories.py` — `CalendarRepository._create_event_from_task`,
    `_add_alarms_to_event`, `get_task_calendar_data`
  * `src/application/__init__.py`    — `DataSyncService.sync_all_data`, `CalDAVService.get_etag`
  * `src/presentation/app.py`        — `parse_depth_header`
  * `src/presentation/routes.py`     — `propfind_calendars`, `report_calendar`,
    `get_calendar_event`

Conventions of the embedding:
  * UTC instants are integers of epoch seconds (all instants produced by the code
    come from `datetime.fromtimestamp(int(..), tz=utc)`, hence are whole seconds).
  * Calendar dates are integers of days since the epoch in the display timezone.
  * Upstream JSON scalars are modelled by `PyVal` together with Python truthiness.
  * `datetime.fromtimestamp(n, tz=utc)` is modelled as a partial function that
    fails (a `ValueError`, caught by the code) outside the `datetime`-representable
    range of years 1..9999.
  * Exceptions are modelled with `Except`/`Option`; mutable caches by explicit
    state passing over `SyncState`.
-/

namespace KodboxCaldav

/-- A scalar value of the upstream KodBox JSON payload: absent/None, a string,
or an integer. -/
inductive PyVal where
  | none
  | str (s : String)
  | int (n : Int)
deriving DecidableEq, Repr

/-- Python truthiness of a `PyVal` (`if v:`): `None`, `""` and `0` are falsy. -/
def PyVal.truthy : PyVal → Bool
  | .none => false
  | .str s => !s.isEmpty
  | .int n => n != 0

/-- The whitespace characters Python `str.strip()` removes. -/
def isPySpace (c : Char) : Bool :=
  c = ' ' ∨ c = '\t' ∨ c = '\n' ∨ c = '\r' ∨ c = '\x0b' ∨ c = '\x0c'

/-- Model of Python's whitespace stripping applied by `int(str)`. -/
def pyStrip (s : String) : String :=
  String.mk (((s.data.dropWhile isPySpace).reverse.dropWhile isPySpace).reverse)

/-- Digits-only decimal reading used by the model of Python `int(str)`. -/
def digitsToNat? (cs : List Char) : Option Nat :=
  if cs.isEmpty then Option.none
  else cs.foldl
    (fun acc c =>
      match acc with
      | Option.none => Option.none
      | some n => if c.isDigit then some (n * 10 + (c.toNat - 48)) else Option.none)
    (some 0)

/-- Model of Python `int(s)` on a string: surrounding whitespace stripped, an
optional sign followed by ASCII digits; anything else raises `ValueError`
(modelled as `none`). -/
def pyIntOfString (s : String) : Option Int :=
  match (pyStrip s).data with
  | [] => Option.none
  | '-' :: rest => (digitsToNat? rest).map (fun n => -(n : Int))
  | '+' :: rest => (digitsToNat? rest).map (fun n => (n : Int))
  | cs => (digitsToNat? cs).map (fun n => (n : Int))

/-- Model of Python `int(v)`: `TypeError` on `None` (modelled as `none`),
`ValueError` on a non-numeric string, identity on an integer. -/
def PyVal.toInt? : PyVal → Option Int
  | .none => Option.none
  | .str s => pyIntOfString s
  | .int n => some n

/-- How a `PyVal` prints inside a Python f-string. -/
def PyVal.format : PyVal → String
  | .none => "None"
  | .str s => s
  | .int n => toString n

/-- Epoch seconds of 0001-01-01T00:00:00Z, the smallest `datetime`. -/
def minDatetimeTs : Int := -62135596800

/-- Epoch seconds of 9999-12-31T23:59:59Z, the largest whole-second `datetime`. -/
def maxDatetimeTs : Int := 253402300799

/-- Model of `datetime.fromtimestamp(n, tz=timezone.utc)`: the UTC instant `n`
when it is representable (years 1..9999), failure (a raised `ValueError`,
which the callers catch) otherwise. -/
def fromtimestampUTC? (n : Int) : Option Int :=
  if minDatetimeTs ≤ n ∧ n ≤ maxDatetimeTs then some n else Option.none

/-- The `if d.get(k): try: datetime.fromtimestamp(int(d[k]), tz=utc) except
(ValueError, TypeError): pass` pattern of `entities.py`: a field parses to an
instant only when truthy, numeric and representable. -/
def parseTimeField (v : PyVal) : Option Int :=
  if v.truthy then
    match v.toInt? with
    | some n => fromtimestampUTC? n
    | Option.none => Option.none
  else Option.none

/-- `TaskStatus` enumeration of `entities.py`. -/
inductive TaskStatus where
  | ready
  | doing
  | finished
  | closed
deriving DecidableEq, Repr

/-- `TaskPriority` enumeration of `entities.py` (the `hight` typos are kept by
the source for upstream compatibility). -/
inductive TaskPriority where
  | veryLow
  | low
  | normal
  | high
  | veryHigh
deriving DecidableEq, Repr

/-- The `.value` string of each `TaskPriority` member. -/
def TaskPriority.value : TaskPriority → String
  | .veryLow => "very-low"
  | .low => "low"
  | .normal => "normal"
  | .high => "hight"
  | .veryHigh => "very-hight"

/-- `TaskPriority(s)` by value: `ValueError` (modelled `none`) on unknown tokens. -/
def taskPriorityOfValue? (s : String) : Option TaskPriority :=
  if s = "very-low" then some .veryLow
  else if s = "low" then some .low
  else if s = "normal" then some .normal
  else if s = "hight" then some .high
  else if s = "very-hight" then some .veryHigh
  else Option.none

/-- `TaskPriority(v)` on an arbitrary scalar: non-strings never match a member
value, so they raise `ValueError` (modelled `none`). -/
def priorityFromPyVal (v : PyVal) : Option TaskPriority :=
  match v with
  | .str s => taskPriorityOfValue? s
  | _ => Option.none

/-- The `status_mapping.get(task_status)` dictionary lookup of
`Task.from_kodbox_data`: string keys `"0"`..`"3"`; any other value misses. -/
def statusMappingGet (v : PyVal) : Option TaskStatus :=
  match v with
  | .str s =>
    if s = "0" then some .ready
    else if s = "1" then some .finished
    else if s = "2" then some .doing
    else if s = "3" then some .closed
    else Option.none
  | _ => Option.none

/-- Domain entity `Task` of `entities.py` (time fields as UTC epoch seconds). -/
structure Task where
  id : String
  name : String
  project_id : String
  description : Option String := Option.none
  status : Option TaskStatus := Option.none
  priority : Option TaskPriority := Option.none
  start_time : Option Int := Option.none
  end_time : Option Int := Option.none
  created_at : Option Int := Option.none
  modified_at : Option Int := Option.none
  owner_id : Option String := Option.none
  tags : List String := []
  is_list : Bool := false
deriving DecidableEq, Repr

/-- The fields of one raw upstream task record that `Task.from_kodbox_data`
reads (`metaInfo` sub-fields inlined: `timeFrom`, `timeTo`, `taskLevel`,
`tags`). -/
structure KodboxTaskData where
  name : Option String := Option.none
  desc : Option String := Option.none
  status : PyVal := PyVal.none
  createTime : PyVal := PyVal.none
  modifyTime : PyVal := PyVal.none
  timeFrom : PyVal := PyVal.none
  timeTo : PyVal := PyVal.none
  taskLevel : PyVal := PyVal.none
  tags : PyVal := PyVal.none
  ownerUser : Option String := Option.none
  isList : Option String := Option.none
deriving DecidableEq, Repr

/-- `Task.from_kodbox_data` of `entities.py`. -/
def Task.from_kodbox_data (task_id : String) (d : KodboxTaskData) (project_id : String) : Task :=
  let start0 := parseTimeField d.timeFrom
  let end0 := parseTimeField d.timeTo
  let created := parseTimeField d.createTime
  let modified := parseTimeField d.modifyTime
  let start1 :=
    if start0.isNone && end0.isNone && created.isSome then created else start0
  let status :=
    if d.status.truthy then statusMappingGet d.status else Option.none
  let priority :=
    if d.taskLevel.truthy then priorityFromPyVal d.taskLevel else Option.none
  let tags :=
    if d.tags.truthy then ["tag-" ++ d.tags.format] else []
  { id := task_id
    name := d.name.getD "Untitled Task"
    project_id := project_id
    description := d.desc
    status := status
    priority := priority
    start_time := start1
    end_time := end0
    created_at := created
    modified_at := modified
    owner_id := d.ownerUser
    tags := tags
    is_list := d.isList == some "1" }

/-- Domain entity `Project` of `entities.py`. -/
structure Project where
  id : String
  name : String
  description : Option String := Option.none
  created_at : Option Int := Option.none
  modified_at : Option Int := Option.none
  owner_id : Option String := Option.none
  tasks : List Task := []
deriving DecidableEq, Repr

/-- `Calendar.display_name` of `entities.py`, applied to the project a calendar
wraps: `self.name or f"Project {self.id}"`. -/
def displayNameOf (p : Project) : String :=
  if p.name = "" then "Project " ++ p.id else p.name

/-! ## Calendar renderer (`src/infrastructure/repositories.py`) -/

/-- A `VALARM` component as produced by `_add_alarms_to_event`: the `ACTION`
property and the `TRIGGER` timedelta in minutes (negative = before start). -/
structure VAlarm where
  action : String
  triggerMinutes : Int
deriving DecidableEq, Repr

/-- A `DTSTART`/`DTEND` property value: either a date-only value (`VALUE=DATE`,
as days since the epoch in the display timezone) or a timestamp value (the UTC
instant together with the timezone offset, in seconds, it is displayed in). -/
inductive DTValue where
  | dateOnly (day : Int)
  | dateTime (utcSeconds : Int) (tzOffsetSeconds : Int)
deriving DecidableEq, Repr

/-- The properties of a rendered `VEVENT` that the verified claims observe. -/
structure VEvent where
  uid : String
  summary : String
  priorityNum : Option Nat := Option.none
  dtstart : Option DTValue := Option.none
  dtend : Option DTValue := Option.none
  transp : Option String := Option.none
  classProp : Option String := Option.none
  statusProp : Option String := Option.none
  sequence : Option Nat := Option.none
  alarms : List VAlarm := []
deriving DecidableEq, Repr

/-- The display timezone of the renderer: `timezone(timedelta(hours=8))`. -/
def chinaTzOffset : Int := 8 * 3600

/-- `instant.astimezone(china_tz).date()` as days since the epoch: the wall
clock in UTC+8 crosses midnight every 86400 seconds, floored. -/
def chinaDate (utcSeconds : Int) : Int :=
  (utcSeconds + chinaTzOffset).fdiv 86400

/-- The `reminder_minutes` list chosen by `_add_alarms_to_event` from the task
priority (note the no-priority default of a single 15-minute reminder). -/
def reminderMinutes (p : Option TaskPriority) : List Int :=
  match p with
  | some pr =>
    if pr.value = "very-hight" ∨ pr.value = "hight" then [0, 15, 60, 1440]
    else if pr.value = "normal" then [15, 60]
    else if pr.value = "low" ∨ pr.value = "very-low" then [60]
    else []
  | Option.none => [15]

/-- Whether `_add_alarms_to_event` selects the `AUDIO` action:
`task.priority and task.priority.value in ['very-hight', 'hight']`. -/
def audioAction (p : Option TaskPriority) : Bool :=
  match p with
  | some pr => pr.value = "very-hight" ∨ pr.value = "hight"
  | Option.none => false

/-- `_add_alarms_to_event`: alarms are appended only when `task.start_time` is
set; each reminder offset becomes one alarm with trigger `0` at the start and
`-minutes` before it. -/
def alarmsForTask (task : Task) : List VAlarm :=
  if task.start_time.isSome then
    (reminderMinutes task.priority).map (fun m =>
      { action := if audioAction task.priority then "AUDIO" else "DISPLAY"
        triggerMinutes := if m = 0 then 0 else -m })
  else []

/-- The `PRIORITY` number added by `_create_event_from_task` (1-4 high,
5 normal, 6-9 low); the final `else` of the source chain adds nothing, which
is unreachable because the enum members cover all branches. -/
def iCalPriority (p : Option TaskPriority) : Option Nat :=
  match p with
  | some pr =>
    if pr.value = "very-hight" ∨ pr.value = "hight" then some 1
    else if pr.value = "normal" then some 5
    else if pr.value = "low" ∨ pr.value = "very-low" then some 9
    else Option.none
  | Option.none => some 5

/-- The properties shared by both the all-day and the timed branch of
`_create_event_from_task`. -/
def eventBase (task : Task) : VEvent :=
  { uid := "kodbox-task-" ++ task.id ++ "@kodbox.local"
    summary := task.name
    priorityNum := iCalPriority task.priority
    alarms := alarmsForTask task }

/-- The all-day branch of `_create_event_from_task`: date-only `DTSTART` on the
instant's date in the display timezone, date-only `DTEND` one day later,
`TRANSP:TRANSPARENT`, plus `CLASS`/`STATUS`/`SEQUENCE`. -/
def allDayFields (ev : VEvent) (instant : Int) : VEvent :=
  let d := chinaDate instant
  { ev with
    dtstart := some (.dateOnly d)
    dtend := some (.dateOnly (d + 1))
    transp := some "TRANSPARENT"
    classProp := some "PUBLIC"
    statusProp := some "CONFIRMED"
    sequence := some 0 }

/-- `_create_event_from_task` of `repositories.py` (the `try` body; the
properties not observed by any claim — description, created, last-modified,
dtstamp — are omitted from the embedding). -/
def createEventFromTask (task : Task) : VEvent :=
  match task.start_time, task.end_time with
  | some s, Option.none => allDayFields (eventBase task) s
  | Option.none, some e => allDayFields (eventBase task) e
  | some s, some e =>
    { eventBase task with
      dtstart := some (.dateTime s chinaTzOffset)
      dtend := some (.dateTime e chinaTzOffset)
      transp := some "OPAQUE"
      classProp := some "PUBLIC"
      statusProp := some "CONFIRMED"
      sequence := some 0 }
  | Option.none, Option.none => eventBase task

/-- A rendered `VCALENDAR` document before serialization. -/
structure VCalendar where
  calname : String
  events : List VEvent
deriving DecidableEq, Repr

/-- `get_task_calendar_data` of `repositories.py`, parametrized by the result
of `_create_event_from_task` (which is `None` when the per-event build raised
internally): the event is added only when present. -/
def taskCalendarStructure (ev : Option VEvent) (projectName taskName : String) : VCalendar :=
  { calname := projectName ++ " - " ++ taskName
    events := match ev with | some e => [e] | Option.none => [] }

/-- Serialization of one event inside `Calendar.to_ical`. -/
def renderEvent (e : VEvent) : String :=
  "BEGIN:VEVENT\r\nUID:" ++ e.uid ++ "\r\nSUMMARY:" ++ e.summary ++ "\r\nEND:VEVENT\r\n"

/-- `cal.to_ical()` of the `icalendar` library on the calendars this program
builds: the fixed headers are always emitted, so the text is never empty. -/
def VCalendar.to_ical (c : VCalendar) : String :=
  "BEGIN:VCALENDAR\r\nPRODID:-//KodBox CalDAV Server//kodbox_caldav//EN\r\nVERSION:2.0\r\nCALSCALE:GREGORIAN\r\nMETHOD:PUBLISH\r\nX-WR-CALNAME:"
    ++ c.calname ++ "\r\n"
    ++ String.join (c.events.map renderEvent)
    ++ "END:VCALENDAR\r\n"

/-! ## Synchronized data cache (`src/application/__init__.py`) -/

/-- The mutable state of `DataSyncService`: the projects cache, the rendered
calendar-text cache, and the last-refresh timestamp. -/
structure SyncState where
  projects_cache : List (String × Project) := []
  calendars_cache : List (String × String) := []
  last_sync : Option Int := Option.none
deriving DecidableEq, Repr

/-- `DataSyncService.get_project`: dictionary lookup in the projects cache. -/
def SyncState.get_project (st : SyncState) (project_id : String) : Option Project :=
  st.projects_cache.lookup project_id

/-- `DataSyncService.get_task`: find the project, then linear search of its
task list by id. -/
def SyncState.get_task (st : SyncState) (project_id task_id : String) : Option Task :=
  match st.get_project project_id with
  | some p => p.tasks.find? (fun t => t.id == task_id)
  | Option.none => Option.none

/-- `DataSyncService.sync_all_data`, with the upstream fetch result and the
per-project calendar generation passed in explicitly (`Except.error` models a
raised exception). The fetch happens before any cache mutation; a fetch error
re-raises with the state untouched. A per-project calendar-generation error is
caught: the project is still cached and its calendar text is retried once and
then skipped. On success the three cache fields are replaced wholesale. -/
def sync_all_data (st : SyncState) (fetchResult : Except String (List Project))
    (calGen : Project → Except String String) (now : Int) : SyncState × Option String :=
  match fetchResult with
  | .error e => (st, some e)
  | .ok projects =>
    ({ projects_cache := projects.map (fun p => (p.id, p))
       calendars_cache := projects.filterMap (fun p =>
         match calGen p with
         | .ok s => some (p.id, s)
         | .error _ => Option.none)
       last_sync := some now }, Option.none)

/-- `"..."` quoting used by `CalDAVService.get_etag`. -/
def quoteInt (n : Int) : String := "\"" ++ toString n ++ "\""

/-- The `latest_timestamp` accumulation of `CalDAVService.get_etag`: starts at
`0`, folds in the project's `modified_at` and every task's `modified_at`. -/
def latestTimestamp (p : Project) : Int :=
  let l0 : Int :=
    match p.modified_at with
    | some m => max 0 m
    | Option.none => 0
  p.tasks.foldl
    (fun acc t =>
      match t.modified_at with
      | some m => max acc m
      | Option.none => acc) l0

/-- `CalDAVService.get_etag` (`now` is the `datetime.now(timezone.utc)` read in
the ctag fallback branch). With an event id: the task's quoted `modified_at`
timestamp, `"0"` when absent. Without: the quoted `latest_timestamp` when
positive, else the quoted current instant; `"0"` for an unknown calendar. -/
def get_etag (st : SyncState) (now : Int) (calendar_id : String)
    (event_id : Option String) : String :=
  match event_id with
  | some eid =>
    match st.get_task calendar_id eid with
    | some task =>
      match task.modified_at with
      | some m => quoteInt m
      | Option.none => "\"0\""
    | Option.none => "\"0\""
  | Option.none =>
    match st.get_project calendar_id with
    | some p =>
      if latestTimestamp p > 0 then quoteInt (latestTimestamp p)
      else quoteInt now
    | Option.none => "\"0\""

/-! ## CalDAV protocol handler (`src/presentation/app.py`, `routes.py`) -/

/-- The parsed `Depth` header value. -/
inductive Depth where
  | finite (n : Int)
  | unbounded
deriving DecidableEq, Repr

/-- `parse_depth_header` of `app.py`: missing header defaults to `"0"`,
`"infinity"` is unbounded (`float('inf')`), otherwise `int(depth)` with any
parse failure falling back to `0`. -/
def parse_depth_header (h : Option String) : Depth :=
  let depth := h.getD "0"
  if depth = "infinity" then .unbounded
  else
    match pyIntOfString depth with
    | some n => .finite n
    | Option.none => .finite 0

/-- The `depth > 0` test of the route handlers. -/
def Depth.isPositive : Depth → Bool
  | .unbounded => true
  | .finite n => decide (0 < n)

/-- One `<response>` element of a multi-status document: its `<href>` and its
property list. -/
structure DavResponse where
  href : String
  props : List (String × String)
deriving DecidableEq, Repr

/-- The depth-0 `<response>` for the `/calendars/` collection itself. -/
def calendarsCollectionResponse : DavResponse :=
  { href := "/calendars/", props := [("displayname", "Calendars")] }

/-- The `<response>` emitted for one cached project inside `propfind_calendars`
(depth > 0): its display name, description and `getctag`. -/
def calendarEntryResponse (st : SyncState) (now : Int) (p : Project) : DavResponse :=
  { href := "/calendars/" ++ p.id ++ "/"
    props := [("displayname", displayNameOf p),
              ("calendar-description", p.description.getD ""),
              ("getctag", get_etag st now p.id Option.none)] }

/-- `propfind_calendars` of `routes.py`: the collection's own response, plus —
only when the parsed depth is positive — one response per cached project
carrying that calendar's ctag. -/
def propfind_calendars (st : SyncState) (now : Int) (depthHeader : Option String) :
    List DavResponse :=
  let depth := parse_depth_header depthHeader
  if depth.isPositive then
    calendarsCollectionResponse ::
      st.projects_cache.map (fun kv => calendarEntryResponse st now kv.2)
  else [calendarsCollectionResponse]

/-- Model of Python `s.endswith(suffix)`. -/
def pyEndsWith (s suffix : String) : Bool :=
  suffix.data.isSuffixOf s.data

/-- Model of Python `s.split('/')[-1]`: everything after the last slash. -/
def lastSegment (s : String) : String :=
  String.mk ((s.data.reverse.takeWhile (fun c => c ≠ '/')).reverse)

/-- Removal of every occurrence of a non-empty pattern, fuelled so that it is
structurally recursive; with fuel `l.length` it models Python
`l.replace(pat, '')`. -/
def replaceAllFuel (pat : List Char) : Nat → List Char → List Char
  | 0, l => l
  | _ + 1, [] => []
  | fuel + 1, c :: cs =>
    if pat.isPrefixOf (c :: cs) then
      replaceAllFuel pat fuel (cs.drop (pat.length - 1))
    else c :: replaceAllFuel pat fuel cs

/-- Model of Python `s.replace(pat, '')` for a non-empty pattern. -/
def pyReplaceAll (s pat : String) : String :=
  String.mk (replaceAllFuel pat.data s.data.length s.data)

/-- `href.split('/')[-1].replace('.ics', '')` of the multiget handler. -/
def taskIdOfHref (href : String) : String :=
  pyReplaceAll (lastSegment href) ".ics"

/-- `CalDAVService.get_event_data` composed with
`CalendarRepository.get_task_calendar_data`, parametrized by the per-task event
builder (`_create_event_from_task`, which yields `None` when the build raised):
`None` when the project or the task is missing, else the serialized single-task
calendar. -/
def get_event_data_with (build : Task → Option VEvent) (st : SyncState)
    (project_id task_id : String) : Option String :=
  match st.get_project project_id, st.get_task project_id task_id with
  | some p, some t => some (taskCalendarStructure (build t) p.name t.name).to_ical
  | _, _ => Option.none

/-- `CalDAVService.get_event_data` with the real event builder. -/
def get_event_data (st : SyncState) (project_id task_id : String) : Option String :=
  get_event_data_with (fun t => some (createEventFromTask t)) st project_id task_id

/-- The body of a `REPORT` request as the handler distinguishes it. -/
inductive ReportBody where
  | multiget (hrefs : List String)
  | query
  | badXml
  | unrecognized
deriving DecidableEq, Repr

/-- The body of the `for href in hrefs` loop of the `calendar-multiget`
handler: an href contributes a `<response>` with its etag and calendar text
exactly when it ends in `.ics` and its task id resolves to event data. -/
def multigetEntry (st : SyncState) (now : Int) (project_id href : String) :
    Option DavResponse :=
  if pyEndsWith href ".ics" then
    match get_event_data st project_id (taskIdOfHref href) with
    | some d =>
      some { href := href
             props := [("getetag", get_etag st now project_id (some (taskIdOfHref href))),
                       ("calendar-data", d)] }
    | Option.none => Option.none
  else Option.none

/-- `report_calendar` of `routes.py`: 404 for an unknown calendar, 400 for
malformed XML or an unrecognized report type; `calendar-multiget` resolves each
listed href ending in `.ics` and silently omits the ones without an existing
task; `calendar-query` returns every task. Result: HTTP status together with
the `<response>` elements of the 207 multi-status body. -/
def report_calendar (st : SyncState) (now : Int) (project_id : String)
    (body : ReportBody) : Nat × List DavResponse :=
  match st.get_project project_id with
  | Option.none => (404, [])
  | some p =>
    match body with
    | .badXml => (400, [])
    | .unrecognized => (400, [])
    | .multiget hrefs =>
      (207, hrefs.filterMap (multigetEntry st now project_id))
    | .query =>
      (207, p.tasks.filterMap (fun t =>
        match get_event_data st project_id t.id with
        | some d =>
          some { href := "/calendars/" ++ project_id ++ "/" ++ t.id ++ ".ics"
                 props := [("getetag", get_etag st now project_id (some t.id)),
                           ("calendar-data", d)] }
        | Option.none => Option.none))

/-- `get_calendar_event` of `routes.py` (GET on `{task_id}.ics`), parametrized
by the event builder: 404 when `get_event_data` yields nothing falsy-or-None,
else 200 with the calendar text as body. -/
def get_calendar_event_route (build : Task → Option VEvent) (st : SyncState)
    (project_id task_id : String) : Nat × Option String :=
  match get_event_data_with build st project_id task_id with
  | some d => if d = "" then (404, Option.none) else (200, some d)
  | Option.none => (404, Option.none)

/-! ## Auxiliary definitions used by the theorems -/

/-- All `modified_at` timestamps present on a project and its tasks. -/
def presentModTimes (p : Project) : List Int :=
  p.modified_at.toList ++ p.tasks.filterMap (fun t => t.modified_at)

/-- An event builder that fails on every task, modelling
`_create_event_from_task` raising internally and returning `None`. -/
def failingBuilder : Task → Option VEvent := fun _ => Option.none

/-! ## Concrete sample inputs -/

/-- A task with only a start time (2024-01-10T00:00:00Z) and no priority. -/
def sampleTaskAllDay : Task :=
  { id := "T1", name := "Task One", project_id := "P1",
    start_time := some 1704844800, modified_at := some 200 }

/-- A task with both a start and an end time and normal priority. -/
def sampleTaskTimed : Task :=
  { id := "T2", name := "Task Two", project_id := "P1",
    priority := some TaskPriority.normal,
    start_time := some 1704844800, end_time := some 1704848400 }

/-- A task with neither a start nor an end time. -/
def sampleTaskNoTimes : Task :=
  { id := "T3", name := "Task Three", project_id := "P1" }

/-- A cached project holding the sample tasks. -/
def sampleProject : Project :=
  { id := "P1", name := "Proj One", modified_at := some 100,
    tasks := [sampleTaskAllDay, sampleTaskTimed, sampleTaskNoTimes] }

/-- A cache state holding the sample project. -/
def sampleState : SyncState :=
  { projects_cache := [("P1", sampleProject)],
    calendars_cache := [("P1", "text")],
    last_sync := some 42 }

/-- A project whose only `modified_at` timestamp is the epoch itself
(reachable from upstream `modifyTime = "0"`). -/
def projectEpochZero : Project :=
  { id := "P1", name := "Proj Zero", modified_at := some 0 }

/-- A cache state holding only `projectEpochZero`. -/
def stateEpochZero : SyncState :=
  { projects_cache := [("P1", projectEpochZero)] }

/-- An upstream task record with a non-numeric `timeFrom`, no `timeTo` and a
valid `createTime`. -/
def sampleDataBadTimeFrom : KodboxTaskData :=
  { timeFrom := PyVal.str "abc", createTime := PyVal.str "100" }

/-- An upstream task record with valid `timeFrom` and `timeTo`. -/
def sampleDataGoodTimes : KodboxTaskData :=
  { timeFrom := PyVal.str "100", timeTo := PyVal.str "200" }

/-! ## Helper lemmas -/

theorem createEvent_alarms (task : Task) :
    (createEventFromTask task).alarms = alarmsForTask task := by
  cases hs : task.start_time <;> cases he : task.end_time <;>
    simp [createEventFromTask, hs, he, allDayFields, eventBase]

theorem foldl_modTimes (ts : List Task) (a : Int) :
    ts.foldl
      (fun acc t =>
        match t.modified_at with
        | some m => max acc m
        | Option.none => acc) a
      = (ts.filterMap (fun t => t.modified_at)).foldl max a := by
  induction ts generalizing a with
  | nil => rfl
  | cons t ts ih => cases h : t.modified_at <;> simp [h, ih]

theorem latestTimestamp_eq (p : Project) :
    latestTimestamp p = (presentModTimes p).foldl max 0 := by
  unfold latestTimestamp presentModTimes
  rw [List.foldl_append, foldl_modTimes]
  cases h : p.modified_at <;> simp [h]

theorem init_le_foldl_max (l : List Int) (a : Int) : a ≤ l.foldl max a := by
  induction l generalizing a with
  | nil => exact le_refl a
  | cons b t ih => exact le_trans (le_max_left a b) (ih (max a b))

theorem mem_le_foldl_max (l : List Int) (a m : Int) (hm : m ∈ l) :
    m ≤ l.foldl max a := by
  induction l generalizing a with
  | nil => cases hm
  | cons b t ih =>
    rcases List.mem_cons.mp hm with h | h
    · subst h
      exact le_trans (le_max_right a m) (init_le_foldl_max t (max a m))
    · exact ih (max a b) h

theorem foldl_max_le (l : List Int) (a c : Int) (ha : a ≤ c)
    (h : ∀ m ∈ l, m ≤ c) : l.foldl max a ≤ c := by
  induction l generalizing a with
  | nil => exact ha
  | cons b t ih =>
    exact ih (max a b) (max_le ha (h b (List.mem_cons_self b t))) fun m hm =>
      h m (List.mem_cons_of_mem b hm)

set_option maxRecDepth 8000 in
theorem to_ical_ne_empty (c : VCalendar) : c.to_ical ≠ "" := by
  intro h
  have h2 := congrArg String.length h
  simp only [VCalendar.to_ical, String.length_append] at h2
  have hpos : 0 <
      ("BEGIN:VCALENDAR\r\nPRODID:-//KodBox CalDAV Server//kodbox_caldav//EN\r\nVERSION:2.0\r\nCALSCALE:GREGORIAN\r\nMETHOD:PUBLISH\r\nX-WR-CALNAME:" : String).length := by
    decide
  have hz : ("" : String).length = 0 := rfl
  omega

/-! ## Claims -/

/-- C1: for a task with exactly one of `start_time`/`end_time`, the rendered
event is all-day: the present instant converted to the display timezone gives
the date-only `DTSTART`, `DTEND` is the date one day later, and
`TRANSP:TRANSPARENT`; with both present the event is timed, both instants kept
in the display timezone, with `TRANSP:OPAQUE`. -/
theorem claim_C1 (task : Task) :
    (∀ s, task.start_time = some s → task.end_time = Option.none →
      (createEventFromTask task).dtstart = some (DTValue.dateOnly (chinaDate s)) ∧
      (createEventFromTask task).dtend = some (DTValue.dateOnly (chinaDate s + 1)) ∧
      (createEventFromTask task).transp = some "TRANSPARENT") ∧
    (∀ e, task.start_time = Option.none → task.end_time = some e →
      (createEventFromTask task).dtstart = some (DTValue.dateOnly (chinaDate e)) ∧
      (createEventFromTask task).dtend = some (DTValue.dateOnly (chinaDate e + 1)) ∧
      (createEventFromTask task).transp = some "TRANSPARENT") ∧
    (∀ s e, task.start_time = some s → task.end_time = some e →
      (createEventFromTask task).dtstart = some (DTValue.dateTime s chinaTzOffset) ∧
      (createEventFromTask task).dtend = some (DTValue.dateTime e chinaTzOffset) ∧
      (createEventFromTask task).transp = some "OPAQUE") := by
  refine ⟨?_, ?_, ?_⟩
  · intro s hs he
    simp [createEventFromTask, hs, he, allDayFields, eventBase]
  · intro e hs he
    simp [createEventFromTask, hs, he, allDayFields, eventBase]
  · intro s e hs he
    simp [createEventFromTask, hs, he, eventBase]

/-- Witness for C1 at the concrete sample tasks. -/
theorem claim_C1_witness :
    ((createEventFromTask sampleTaskAllDay).dtstart
        = some (DTValue.dateOnly (chinaDate 1704844800)) ∧
      (createEventFromTask sampleTaskAllDay).dtend
        = some (DTValue.dateOnly (chinaDate 1704844800 + 1)) ∧
      (createEventFromTask sampleTaskAllDay).transp = some "TRANSPARENT") ∧
    ((createEventFromTask sampleTaskTimed).dtstart
        = some (DTValue.dateTime 1704844800 chinaTzOffset) ∧
      (createEventFromTask sampleTaskTimed).dtend
        = some (DTValue.dateTime 1704848400 chinaTzOffset) ∧
      (createEventFromTask sampleTaskTimed).transp = some "OPAQUE") :=
  ⟨(claim_C1 sampleTaskAllDay).1 1704844800 rfl rfl,
   (claim_C1 sampleTaskTimed).2.2 1704844800 1704848400 rfl rfl⟩

/-- C4: a refresh cycle whose upstream fetch raises leaves the cached projects
map, the cached calendar texts and the last-refresh timestamp unchanged, and
propagates the failure to the caller. -/
theorem claim_C4 (st : SyncState) (e : String)
    (calGen : Project → Except String String) (now : Int) :
    (sync_all_data st (Except.error e) calGen now).1.projects_cache = st.projects_cache ∧
    (sync_all_data st (Except.error e) calGen now).1.calendars_cache = st.calendars_cache ∧
    (sync_all_data st (Except.error e) calGen now).1.last_sync = st.last_sync ∧
    (sync_all_data st (Except.error e) calGen now).2 = some e :=
  ⟨rfl, rfl, rfl, rfl⟩

/-- C7 counterexample: a task with a start time and no priority gets a single
DISPLAY alarm 15 minutes before start, not the two-alarm (15 and 60) schedule
the claim states for absent priority. -/
theorem claim_C7_counterexample :
    sampleTaskAllDay.priority = Option.none ∧
    sampleTaskAllDay.start_time.isSome = true ∧
    (createEventFromTask sampleTaskAllDay).alarms =
      [{ action := "DISPLAY", triggerMinutes := -15 }] ∧
    (createEventFromTask sampleTaskAllDay).alarms ≠
      [{ action := "DISPLAY", triggerMinutes := -15 },
       { action := "DISPLAY", triggerMinutes := -60 }] := by
  refine ⟨rfl, rfl, rfl, ?_⟩
  rw [createEvent_alarms]
  decide

/-- C7 amended: alarms only with `start_time` present; {high, very_high} →
AUDIO alarms at 0, 15, 60 and 1440 minutes before; normal → DISPLAY at 15 and
60 before; {low, very_low} → one DISPLAY at 60 before; absent priority → one
DISPLAY alarm at 15 minutes before. -/
theorem claim_C7_amended (task : Task) :
    (task.start_time = Option.none → (createEventFromTask task).alarms = []) ∧
    (task.start_time.isSome = true →
      ((task.priority = some TaskPriority.high ∨ task.priority = some TaskPriority.veryHigh) →
        (createEventFromTask task).alarms =
          [{ action := "AUDIO", triggerMinutes := 0 },
           { action := "AUDIO", triggerMinutes := -15 },
           { action := "AUDIO", triggerMinutes := -60 },
           { action := "AUDIO", triggerMinutes := -1440 }]) ∧
      (task.priority = some TaskPriority.normal →
        (createEventFromTask task).alarms =
          [{ action := "DISPLAY", triggerMinutes := -15 },
           { action := "DISPLAY", triggerMinutes := -60 }]) ∧
      ((task.priority = some TaskPriority.low ∨ task.priority = some TaskPriority.veryLow) →
        (createEventFromTask task).alarms = [{ action := "DISPLAY", triggerMinutes := -60 }]) ∧
      (task.priority = Option.none →
        (createEventFromTask task).alarms = [{ action := "DISPLAY", triggerMinutes := -15 }])) := by
  rw [createEvent_alarms]
  constructor
  · intro hs
    simp [alarmsForTask, hs]
  · intro hs
    refine ⟨?_, ?_, ?_, ?_⟩
    · rintro (hp | hp) <;>
        simp [alarmsForTask, hs, hp, reminderMinutes, audioAction, TaskPriority.value]
    · intro hp
      simp [alarmsForTask, hs, hp, reminderMinutes, audioAction, TaskPriority.value]
    · rintro (hp | hp) <;>
        simp [alarmsForTask, hs, hp, reminderMinutes, audioAction, TaskPriority.value]
    · intro hp
      simp [alarmsForTask, hs, hp, reminderMinutes, audioAction]

/-- Witness for the amended C7 at concrete tasks. -/
theorem claim_C7_amended_witness :
    (createEventFromTask sampleTaskNoTimes).alarms = [] ∧
    (createEventFromTask sampleTaskTimed).alarms =
      [{ action := "DISPLAY", triggerMinutes := -15 },
       { action := "DISPLAY", triggerMinutes := -60 }] :=
  ⟨(claim_C7_amended sampleTaskNoTimes).1 rfl,
   ((claim_C7_amended sampleTaskTimed).2 rfl).2.1 rfl⟩

/-- C8 counterexample: the event rendered for a task with neither `start_time`
nor `end_time` carries none of `CLASS`, `STATUS`, `SEQUENCE`, contradicting the
claim that every rendered event carries them. -/
theorem claim_C8_counterexample :
    sampleTaskNoTimes.start_time = Option.none ∧
    sampleTaskNoTimes.end_time = Option.none ∧
    (createEventFromTask sampleTaskNoTimes).classProp ≠ some "PUBLIC" ∧
    (createEventFromTask sampleTaskNoTimes).classProp = Option.none ∧
    (createEventFromTask sampleTaskNoTimes).statusProp = Option.none ∧
    (createEventFromTask sampleTaskNoTimes).sequence = Option.none := by
  refine ⟨rfl, rfl, ?_, rfl, rfl, rfl⟩
  decide

/-- C8 amended: every rendered event for a task with at least one of
`start_time`/`end_time` present carries `CLASS:PUBLIC`, `STATUS:CONFIRMED` and
`SEQUENCE:0`; the event for a task with neither carries none of the three. -/
theorem claim_C8_amended (task : Task) :
    ((task.start_time.isSome = true ∨ task.end_time.isSome = true) →
      (createEventFromTask task).classProp = some "PUBLIC" ∧
      (createEventFromTask task).statusProp = some "CONFIRMED" ∧
      (createEventFromTask task).sequence = some 0) ∧
    (task.start_time = Option.none → task.end_time = Option.none →
      (createEventFromTask task).classProp = Option.none ∧
      (createEventFromTask task).statusProp = Option.none ∧
      (createEventFromTask task).sequence = Option.none) := by
  constructor
  · intro h
    cases hs : task.start_time <;> cases he : task.end_time
    · simp [hs, he] at h
    · simp [createEventFromTask, hs, he, allDayFields, eventBase]
    · simp [createEventFromTask, hs, he, allDayFields, eventBase]
    · simp [createEventFromTask, hs, he, eventBase]
  · intro hs he
    simp [createEventFromTask, hs, he, eventBase]

/-- Witness for the amended C8 at concrete tasks. -/
theorem claim_C8_amended_witness :
    ((createEventFromTask sampleTaskAllDay).classProp = some "PUBLIC" ∧
      (createEventFromTask sampleTaskAllDay).statusProp = some "CONFIRMED" ∧
      (createEventFromTask sampleTaskAllDay).sequence = some 0) ∧
    ((createEventFromTask sampleTaskNoTimes).classProp = Option.none ∧
      (createEventFromTask sampleTaskNoTimes).statusProp = Option.none ∧
      (createEventFromTask sampleTaskNoTimes).sequence = Option.none) :=
  ⟨(claim_C8_amended sampleTaskAllDay).1 (Or.inl rfl),
   (claim_C8_amended sampleTaskNoTimes).2 rfl rfl⟩

/-- C3: domain construction maps upstream status code `"0"` to ready, `"1"` to
finished, `"2"` to doing, `"3"` to closed, and leaves the status absent for
every other status value. -/
theorem claim_C3 (tid pid : String) (d : KodboxTaskData) :
    (Task.from_kodbox_data tid d pid).status =
      (if d.status = PyVal.str "0" then some TaskStatus.ready
       else if d.status = PyVal.str "1" then some TaskStatus.finished
       else if d.status = PyVal.str "2" then some TaskStatus.doing
       else if d.status = PyVal.str "3" then some TaskStatus.closed
       else Option.none) := by
  have hstat : (Task.from_kodbox_data tid d pid).status
      = (if d.status.truthy then statusMappingGet d.status else Option.none) := rfl
  rw [hstat]
  by_cases h0 : d.status = PyVal.str "0"
  · rw [h0]; decide
  by_cases h1 : d.status = PyVal.str "1"
  · rw [h1]; decide
  by_cases h2 : d.status = PyVal.str "2"
  · rw [h2]; decide
  by_cases h3 : d.status = PyVal.str "3"
  · rw [h3]; decide
  rw [if_neg h0, if_neg h1, if_neg h2, if_neg h3]
  cases hv : d.status with
  | none => rfl
  | int n =>
    by_cases hn : n = 0 <;> simp [PyVal.truthy, statusMappingGet, hn]
  | str s =>
    have hs0 : ¬ s = "0" := fun h => h0 (by rw [hv, h])
    have hs1 : ¬ s = "1" := fun h => h1 (by rw [hv, h])
    have hs2 : ¬ s = "2" := fun h => h2 (by rw [hv, h])
    have hs3 : ¬ s = "3" := fun h => h3 (by rw [hv, h])
    simp [PyVal.truthy, statusMappingGet, hs0, hs1, hs2, hs3]

/-- C9 counterexample: with a non-numeric `timeFrom`, an absent `timeTo` and a
valid `createTime`, the constructed task's `start_time` is the parsed
`created_at`, not absent as the claim states for invalid values. -/
theorem claim_C9_counterexample :
    parseTimeField sampleDataBadTimeFrom.timeFrom = Option.none ∧
    sampleDataBadTimeFrom.timeTo = PyVal.none ∧
    (Task.from_kodbox_data "T1" sampleDataBadTimeFrom "P1").start_time = some 100 ∧
    (Task.from_kodbox_data "T1" sampleDataBadTimeFrom "P1").start_time ≠ Option.none := by
  refine ⟨by decide, rfl, rfl, by decide⟩

/-- C9 amended: domain construction never raises on the time fields; each time
field parses to the corresponding UTC instant exactly when it is truthy,
numeric and within the `datetime`-representable range, and is treated as absent
otherwise — except that when both `start_time` and `end_time` parse as absent
and `created_at` is present, `start_time` is set to `created_at`. -/
theorem claim_C9_amended (tid pid : String) (d : KodboxTaskData) :
    (Task.from_kodbox_data tid d pid).end_time = parseTimeField d.timeTo ∧
    (Task.from_kodbox_data tid d pid).start_time =
      (if (parseTimeField d.timeFrom).isNone && (parseTimeField d.timeTo).isNone
          && (parseTimeField d.createTime).isSome
        then parseTimeField d.createTime
        else parseTimeField d.timeFrom) ∧
    (∀ n : Int, d.timeFrom.truthy = true → d.timeFrom.toInt? = some n →
      minDatetimeTs ≤ n → n ≤ maxDatetimeTs →
      parseTimeField d.timeFrom = some n) ∧
    (d.timeFrom.toInt? = Option.none → parseTimeField d.timeFrom = Option.none) := by
  refine ⟨rfl, rfl, ?_, ?_⟩
  · intro n htru hint hlo hhi
    simp [parseTimeField, htru, hint, fromtimestampUTC?, hlo, hhi]
  · intro hint
    simp [parseTimeField, hint]

/-- Witness for the amended C9 at a concrete record. -/
theorem claim_C9_amended_witness :
    (Task.from_kodbox_data "T1" sampleDataGoodTimes "P1").end_time = parseTimeField (PyVal.str "200") ∧
    parseTimeField sampleDataGoodTimes.timeFrom = some 100 ∧
    parseTimeField sampleDataBadTimeFrom.timeFrom = Option.none :=
  ⟨(claim_C9_amended "T1" "P1" sampleDataGoodTimes).1,
   (claim_C9_amended "T1" "P1" sampleDataGoodTimes).2.2.1 100 rfl (by decide)
     (by decide) (by decide),
   (claim_C9_amended "T1" "P1" sampleDataBadTimeFrom).2.2.2 (by decide)⟩

/-- C2 counterexample: a cached project whose only `modified_at` timestamp is
the epoch itself (reachable from upstream `modifyTime = "0"`). A timestamp
exists, and the quoted maximum is `"0"`, yet the ctag is the quoted current
instant — the fallback is not restricted to "no timestamp exists anywhere". -/
theorem claim_C2_counterexample :
    projectEpochZero.modified_at = some 0 ∧
    presentModTimes projectEpochZero = [0] ∧
    get_etag stateEpochZero 1700000000 "P1" Option.none = "\"1700000000\"" ∧
    get_etag stateEpochZero 1700000000 "P1" Option.none ≠ quoteInt 0 := by
  refine ⟨rfl, rfl, rfl, by decide⟩

/-- C2 amended: the event etag is the quoted integer timestamp of the task's
`modified_at` and `"0"` when absent; the ctag is the quoted maximum over the
project's and all tasks' present `modified_at` timestamps whenever some present
timestamp is positive, and the quoted current instant otherwise (in particular
whenever no timestamp is present at all). -/
theorem claim_C2_amended (st : SyncState) (now : Int) (calendar_id : String) :
    (∀ eid t, st.get_task calendar_id eid = some t →
      get_etag st now calendar_id (some eid) =
        (match t.modified_at with
         | some m => quoteInt m
         | Option.none => "\"0\"")) ∧
    (∀ eid, st.get_task calendar_id eid = Option.none →
      get_etag st now calendar_id (some eid) = "\"0\"") ∧
    (∀ p, st.get_project calendar_id = some p →
      ((∃ m ∈ presentModTimes p, 0 < m) →
          get_etag st now calendar_id Option.none =
            quoteInt ((presentModTimes p).foldl max 0)) ∧
      ((∀ m ∈ presentModTimes p, m ≤ 0) →
          get_etag st now calendar_id Option.none = quoteInt now)) := by
  refine ⟨?_, ?_, ?_⟩
  · intro eid t ht
    cases hm : t.modified_at <;> simp [get_etag, ht, hm]
  · intro eid ht
    simp [get_etag, ht]
  · intro p hp
    have hunfold : get_etag st now calendar_id Option.none =
        (if latestTimestamp p > 0 then quoteInt (latestTimestamp p)
         else quoteInt now) := by
      simp [get_etag, hp]
    constructor
    · rintro ⟨m, hm, hmpos⟩
      have h1 : 0 < latestTimestamp p := by
        rw [latestTimestamp_eq]
        exact lt_of_lt_of_le hmpos (mem_le_foldl_max _ 0 m hm)
      rw [hunfold, if_pos h1, latestTimestamp_eq]
    · intro hall
      have h2 : latestTimestamp p ≤ 0 := by
        rw [latestTimestamp_eq]
        exact foldl_max_le _ 0 0 le_rfl hall
      rw [hunfold, if_neg (by omega)]

/-- Witness for the amended C2 at the concrete sample cache. -/
theorem claim_C2_amended_witness :
    get_etag sampleState 7 "P1" (some "T1") = quoteInt 200 ∧
    get_etag sampleState 7 "P1" Option.none =
      quoteInt ((presentModTimes sampleProject).foldl max 0) ∧
    (presentModTimes sampleProject).foldl max 0 = 200 := by
  refine ⟨?_, ?_, by decide⟩
  · exact (claim_C2_amended sampleState 7 "P1").1 "T1" sampleTaskAllDay rfl
  · exact ((claim_C2_amended sampleState 7 "P1").2.2 sampleProject rfl).1
      ⟨200, by decide, by decide⟩

/-- C10: an authenticated GET on a cached project's existing task returns 200
with a non-empty VCALENDAR body even when the per-task VEVENT build fails
internally: the failed event is silently omitted (the calendar then holds zero
VEVENTs) and the failure never surfaces as a 404 or 500. -/
theorem claim_C10 (build : Task → Option VEvent) (st : SyncState)
    (pid tid : String) (p : Project) (t : Task)
    (hp : st.get_project pid = some p) (ht : st.get_task pid tid = some t) :
    (get_calendar_event_route build st pid tid).1 = 200 ∧
    ∃ cal : VCalendar,
      (get_calendar_event_route build st pid tid).2 = some cal.to_ical ∧
      cal.to_ical ≠ "" ∧
      (build t = Option.none → cal.events = []) := by
  have hdata : get_event_data_with build st pid tid =
      some (taskCalendarStructure (build t) p.name t.name).to_ical := by
    simp [get_event_data_with, hp, ht]
  have hroute : get_calendar_event_route build st pid tid =
      (200, some (taskCalendarStructure (build t) p.name t.name).to_ical) := by
    simp [get_calendar_event_route, hdata, to_ical_ne_empty]
  refine ⟨by rw [hroute], taskCalendarStructure (build t) p.name t.name,
    by rw [hroute], to_ical_ne_empty _, ?_⟩
  intro hb
  simp [taskCalendarStructure, hb]

/-- Witness for C10 at the concrete sample cache with a failing builder. -/
theorem claim_C10_witness :
    (get_calendar_event_route failingBuilder sampleState "P1" "T1").1 = 200 ∧
    ∃ cal : VCalendar,
      (get_calendar_event_route failingBuilder sampleState "P1" "T1").2 = some cal.to_ical ∧
      cal.to_ical ≠ "" ∧
      (failingBuilder sampleTaskAllDay = Option.none → cal.events = []) :=
  claim_C10 failingBuilder sampleState "P1" "T1" sampleProject sampleTaskAllDay rfl rfl

/-- C5: PROPFIND on `/calendars/` with an unparseable or `"0"` Depth header
yields exactly one response (the collection itself) and no calendar entries;
with Depth `1` or `infinity` it additionally yields exactly one response per
cached project, each carrying that calendar's ctag. -/
theorem claim_C5 (st : SyncState) (now : Int) :
    (∀ h, (parse_depth_header h).isPositive = false →
      propfind_calendars st now h = [calendarsCollectionResponse]) ∧
    (∀ s, pyIntOfString s = Option.none → s ≠ "infinity" →
      propfind_calendars st now (some s) = [calendarsCollectionResponse]) ∧
    (propfind_calendars st now (some "0") = [calendarsCollectionResponse]) ∧
    (∀ h, (h = some "1" ∨ h = some "infinity") →
      propfind_calendars st now h =
        calendarsCollectionResponse ::
          st.projects_cache.map (fun kv => calendarEntryResponse st now kv.2) ∧
      (propfind_calendars st now h).length = 1 + st.projects_cache.length) ∧
    (∀ p, (calendarEntryResponse st now p).props.lookup "getctag" =
      some (get_etag st now p.id Option.none)) := by
  have hbase : ∀ h, (parse_depth_header h).isPositive = false →
      propfind_calendars st now h = [calendarsCollectionResponse] := by
    intro h hpos
    simp [propfind_calendars, hpos]
  refine ⟨hbase, ?_, ?_, ?_, ?_⟩
  · intro s hpy hinf
    apply hbase
    simp [parse_depth_header, hinf, hpy, Depth.isPositive]
  · exact hbase (some "0") (by decide)
  · intro h hh
    have hpos : (parse_depth_header h).isPositive = true := by
      rcases hh with rfl | rfl <;> decide
    exact ⟨by simp [propfind_calendars, hpos],
      by simp [propfind_calendars, hpos, Nat.add_comm]⟩
  · intro p
    rfl

/-- Witness for C5 at the concrete sample cache. -/
theorem claim_C5_witness :
    propfind_calendars sampleState 7 (some "zzz") = [calendarsCollectionResponse] ∧
    propfind_calendars sampleState 7 (some "0") = [calendarsCollectionResponse] ∧
    (propfind_calendars sampleState 7 (some "1")).length = 1 + 1 := by
  refine ⟨(claim_C5 sampleState 7).2.1 "zzz" (by decide) (by decide),
    (claim_C5 sampleState 7).2.2.1, ?_⟩
  exact ((claim_C5 sampleState 7).2.2.2.1 (some "1") (Or.inl rfl)).2

theorem multigetEntry_href (st : SyncState) (now : Int) (pid h : String)
    (r : DavResponse) (hr : multigetEntry st now pid h = some r) : r.href = h := by
  unfold multigetEntry at hr
  split at hr
  · split at hr
    · cases hr
      rfl
    · cases hr
  · cases hr

theorem multigetEntry_isSome (st : SyncState) (now : Int) (pid : String)
    (p : Project) (hp : st.get_project pid = some p) (h : String) :
    (multigetEntry st now pid h).isSome =
      (pyEndsWith h ".ics" && (st.get_task pid (taskIdOfHref h)).isSome) := by
  unfold multigetEntry
  cases he : pyEndsWith h ".ics"
  · simp [he]
  · cases ht : st.get_task pid (taskIdOfHref h) <;>
      simp [he, ht, get_event_data, get_event_data_with, hp]

theorem filterMap_href_eq_filter (f : String → Option DavResponse)
    (c : String → Bool)
    (hf : ∀ h, (∀ r, f h = some r → r.href = h) ∧ c h = (f h).isSome)
    (l : List String) :
    (l.filterMap f).map (fun r => r.href) = l.filter c := by
  induction l with
  | nil => rfl
  | cons a t ih =>
    cases hfa : f a with
    | none =>
      have hc : c a = false := by rw [(hf a).2, hfa]; rfl
      simp [List.filterMap_cons, hfa, List.filter_cons, hc, ih]
    | some r =>
      have hc : c a = true := by rw [(hf a).2, hfa]; rfl
      have hr : r.href = a := (hf a).1 r hfa
      simp [List.filterMap_cons, hfa, List.filter_cons, hc, ih, hr]

/-- C6: a calendar-multiget REPORT on an existing calendar returns one response
element, with etag and calendar data, per listed href ending in `.ics` that
resolves to an existing task; non-resolving hrefs produce no response element
and no per-href error. -/
theorem claim_C6 (st : SyncState) (now : Int) (pid : String) (p : Project)
    (hrefs : List String) (hp : st.get_project pid = some p) :
    (report_calendar st now pid (ReportBody.multiget hrefs)).1 = 207 ∧
    (report_calendar st now pid (ReportBody.multiget hrefs)).2.map (fun r => r.href) =
      hrefs.filter
        (fun h => pyEndsWith h ".ics" && (st.get_task pid (taskIdOfHref h)).isSome) ∧
    (∀ r ∈ (report_calendar st now pid (ReportBody.multiget hrefs)).2,
      (r.props.lookup "getetag").isSome = true ∧
      (r.props.lookup "calendar-data").isSome = true) := by
  have hrep : report_calendar st now pid (ReportBody.multiget hrefs) =
      (207, hrefs.filterMap (multigetEntry st now pid)) := by
    simp [report_calendar, hp]
  refine ⟨by rw [hrep], ?_, ?_⟩
  · rw [hrep]
    exact filterMap_href_eq_filter _ _
      (fun h => ⟨fun r => multigetEntry_href st now pid h r,
        (multigetEntry_isSome st now pid p hp h).symm⟩) hrefs
  · rw [hrep]
    intro r hr
    obtain ⟨a, _, hfa⟩ := List.mem_filterMap.mp hr
    unfold multigetEntry at hfa
    split at hfa
    · split at hfa
      · cases hfa
        exact ⟨rfl, rfl⟩
      · cases hfa
    · cases hfa

/-- Witness for C6: a multiget listing one resolving and one unknown href
yields exactly one response, for the resolving one. -/
theorem claim_C6_witness :
    (report_calendar sampleState 7 "P1"
        (ReportBody.multiget ["/calendars/P1/T1.ics", "/calendars/P1/UNKNOWN.ics"])).1 = 207 ∧
    (report_calendar sampleState 7 "P1"
        (ReportBody.multiget ["/calendars/P1/T1.ics", "/calendars/P1/UNKNOWN.ics"])).2.map
      (fun r => r.href) = ["/calendars/P1/T1.ics"] := by
  have h := claim_C6 sampleState 7 "P1" sampleProject
    ["/calendars/P1/T1.ics", "/calendars/P1/UNKNOWN.ics"] rfl
  refine ⟨h.1, ?_⟩
  rw [h.2.1]
  decide

end KodboxCaldav
